import Mathlib

/-!
Verification development for the NormalmapGenerator application
(`src/mainwindow.cpp`).  The interactive layer (`MainWindow`) is embedded
shallowly: the UI widget values become a `Settings` record, the window's
`QImage` members become fields of `MWState`, and each slot becomes a state
transformer.  The texture-synthesis components (`IntensityMap`, `BoxBlur`,
`SpecularmapGenerator`) whose sources are not part of the repository
snapshot are modelled from the specification, as documented on each
definition.  Raster images are grids of 8-bit pixels; intermediate scalar
fields use exact rationals for the [0,1] intensity values.
-/

namespace NmGen

/-! ## Qt string helpers (QString / QFileInfo behaviour used by the code) -/

/-- QString::toLower: lower-case every character. -/
def qtToLower (s : String) : String := String.mk (s.toList.map Char.toLower)

/-- Characters of the QFileInfo::suffix of a file name: the part after
(and not including) the last dot, empty when the name has no dot. -/
def suffixChars (cs : List Char) : List Char :=
  if cs.contains '.' then (cs.reverse.takeWhile (fun c => c ≠ '.')).reverse else []

/-- QFileInfo::suffix of a file name. -/
def suffixOf (fileName : String) : String := String.mk (suffixChars fileName.toList)

/-- QFileInfo::baseName: the part of the file name before the first dot. -/
def qtBaseName (fileName : String) : String :=
  String.mk (fileName.toList.takeWhile (fun c => c ≠ '.'))

/-- Does the first list start with the second one? -/
def leadsWith : List Char → List Char → Bool
  | _, [] => true
  | [], _ :: _ => false
  | c :: cs, d :: ds => c = d && leadsWith cs ds

/-- Is `needle` a contiguous sublist of `hay`?  (QString::contains) -/
def containsSub : List Char → List Char → Bool
  | [], needle => needle.isEmpty
  | c :: cs, needle => leadsWith (c :: cs) needle || containsSub cs needle

/-- QString::contains on strings (substring containment). -/
def qstrContains (hay needle : String) : Bool := containsSub hay.toList needle.toList

/-! ## Raster data model -/

/-- One RGBA sample, 8 bits per channel (values 0-255). -/
structure Pixel where
  r : Nat
  g : Nat
  b : Nat
  a : Nat
deriving DecidableEq

/-- A raster buffer (QImage): row-major grid of RGBA pixels. -/
abbrev Image := List (List Pixel)

def Image.width (img : Image) : Nat := (img.headD []).length

def Image.height (img : Image) : Nat := img.length

/-- A scalar field with values in [0,1] (the IntensityMap contents). -/
abbrev IntensityGrid := List (List ℚ)

/-- Channel-combination mode of IntensityMap / SpecularmapGenerator. -/
inductive Mode where
  | AVERAGE
  | MAX
deriving DecidableEq

/-- Gradient kernel selector of NormalmapGenerator. -/
inductive Kernel where
  | SOBEL
  | PREWITT
deriving DecidableEq

/-- clamp(v, lo, hi). -/
def qclamp (v lo hi : ℚ) : ℚ := max lo (min v hi)

/-- Encode a [0,1] scalar as an 8-bit value: byte = round(v*255)
(the spec's rounding encode, round half up). -/
def qEncode (v : ℚ) : Nat := (⌊v * 255 + 1/2⌋).toNat

/-- A grayscale pixel with full alpha, as produced when a scalar map is
re-encoded as a raster buffer. -/
def grayPixel (v : Nat) : Pixel := ⟨v, v, v, 255⟩

/-! ## IntensityMap (modelled from the spec)

Modelled from the spec: the source file of `IntensityMap` is not in the
repository snapshot.  Spec 4.1: per pixel, collect the selected channel
values normalized to [0,1]; AVERAGE takes their mean, MAX their maximum;
no selected channel gives 0. -/

/-- Normalized values of the channels selected by the four flags. -/
def channelValues (p : Pixel) (useR useG useB useA : Bool) : List ℚ :=
  (if useR then [(p.r : ℚ) / 255] else []) ++
  (if useG then [(p.g : ℚ) / 255] else []) ++
  (if useB then [(p.b : ℚ) / 255] else []) ++
  (if useA then [(p.a : ℚ) / 255] else [])

/-- Combine the selected channel values according to the mode. -/
def combineVals (mode : Mode) (vs : List ℚ) : ℚ :=
  match mode with
  | .AVERAGE => if vs.length = 0 then 0 else vs.sum / (vs.length : ℚ)
  | .MAX => vs.foldr max 0

/-- Modelled from the spec: the `IntensityMap(QImage, Mode, bool, bool,
bool, bool)` constructor (spec 4.1). -/
def intensityFromImage (img : Image) (mode : Mode)
    (useR useG useB useA : Bool) : IntensityGrid :=
  img.map (fun row => row.map (fun p => combineVals mode (channelValues p useR useG useB useA)))

/-- Modelled from the spec: `IntensityMap::convertToQImage`, re-encoding the
scalar field as an 8-bit duplicated-channel raster buffer (spec 4.1). -/
def intensityToQImage (g : IntensityGrid) : Image :=
  g.map (fun row => row.map (fun v => grayPixel (qEncode v)))

/-! ## BoxBlur (modelled from the spec)

Modelled from the spec: the source file of `BoxBlur` is not in the
repository snapshot.  Spec 4.4: separable mean filter, horizontal pass then
vertical pass, each pixel replaced by the mean of 2*radius+1 samples
centered on it, with wraparound indexing when tileable and edge-clamp
otherwise. -/

/-- Sample a line at a possibly out-of-range index, wrapping when tileable
and clamping to the nearest edge sample otherwise. -/
def lineSample (row : List ℚ) (tileable : Bool) (i : Int) : ℚ :=
  let n := row.length
  if n = 0 then 0
  else
    let idx : Int := if tileable then i % (n : Int) else max 0 (min i ((n : Int) - 1))
    row.getD idx.toNat 0

/-- One 1-D mean-filter pass over a line. -/
def blurLine (row : List ℚ) (radius : Nat) (tileable : Bool) : List ℚ :=
  (List.range row.length).map (fun j =>
    (((List.range (2 * radius + 1)).map
        (fun k => lineSample row tileable ((j : Int) + (k : Int) - (radius : Int)))).sum)
      / ((2 * radius + 1 : Nat) : ℚ))

/-- Column j of a rectangular grid. -/
def gridColumn (g : IntensityGrid) (j : Nat) : List ℚ := g.map (fun row => row.getD j 0)

/-- Transpose of a rectangular grid, by column extraction. -/
def transposeGrid (g : IntensityGrid) : IntensityGrid :=
  (List.range (g.headD []).length).map (fun j => gridColumn g j)

/-- Modelled from the spec: `BoxBlur::calculate` (spec 4.4), horizontal
pass over each row, then vertical pass over each column. -/
def boxBlur (g : IntensityGrid) (radius : Nat) (tileable : Bool) : IntensityGrid :=
  let horiz := g.map (fun row => blurLine row radius tileable)
  transposeGrid ((transposeGrid horiz).map (fun col => blurLine col radius tileable))

/-! ## SpecularmapGenerator (modelled from the spec)

Modelled from the spec: the source file of `SpecularmapGenerator` is not in
the repository snapshot.  Spec 4.3: per pixel, combine the four normalized
channel values via the mode using the four weights (AVERAGE = weighted mean
normalized by the sum of the weight magnitudes, 0 when all weights are 0;
MAX = the value of the channel with the largest weight*value, first channel
in r,g,b,a order winning ties); then contrast
v1 = clamp(0.5 + (v-0.5)*contrast, 0, 1) (the contrast factor is taken to
be the contrast parameter itself, the simplest monotone map with
contrast=1 giving factor 1), then scale final = clamp(v1*scale, 0, 1);
encoded as a grayscale raster. -/

/-- The four channel multipliers of SpecularmapGenerator. -/
structure SpecWeights where
  red : ℚ
  green : ℚ
  blue : ℚ
  alpha : ℚ
deriving DecidableEq

/-- Of (weight*value, value) candidates, the value whose product is
largest; the earlier candidate wins ties. -/
def maxWeightedVal (cands : List (ℚ × ℚ)) : ℚ :=
  match cands with
  | [] => 0
  | c :: cs => (cs.foldl (fun best x => if best.1 < x.1 then x else best) c).2

/-- Per-pixel combined value of SpecularmapGenerator (spec 4.3). -/
def specPixelValue (mode : Mode) (w : SpecWeights) (p : Pixel) : ℚ :=
  let r := (p.r : ℚ) / 255
  let g := (p.g : ℚ) / 255
  let b := (p.b : ℚ) / 255
  let a := (p.a : ℚ) / 255
  match mode with
  | .AVERAGE =>
    let denom := |w.red| + |w.green| + |w.blue| + |w.alpha|
    if denom = 0 then 0 else (w.red * r + w.green * g + w.blue * b + w.alpha * a) / denom
  | .MAX => maxWeightedVal [(w.red * r, r), (w.green * g, g), (w.blue * b, b), (w.alpha * a, a)]

/-- Contrast mapping of SpecularmapGenerator (spec 4.3). -/
def applyContrast (v contrast : ℚ) : ℚ := qclamp (1/2 + (v - 1/2) * contrast) 0 1

/-- Scale mapping of SpecularmapGenerator (spec 4.3). -/
def applyScale (v scale : ℚ) : ℚ := qclamp (v * scale) 0 1

/-- Modelled from the spec: `SpecularmapGenerator::calculateSpecmap`
(spec 4.3). -/
def calculateSpecmap (mode : Mode) (w : SpecWeights) (img : Image)
    (scale contrast : ℚ) : Image :=
  img.map (fun row => row.map (fun p =>
    grayPixel (qEncode (applyScale (applyContrast (specPixelValue mode w p) contrast) scale))))

/-! ## MainWindow state (`src/mainwindow.cpp`) -/

/-- A dropped/loaded URL: its validity (QUrl::isValid) and its file name;
`dir` is the URL with the file name removed (QUrl::adjusted RemoveFilename),
used for the export path. -/
structure Url where
  valid : Bool
  dir : String
  fileName : String
deriving DecidableEq

/-- The UI widget values read by MainWindow's slots (one field per widget). -/
structure Settings where
  -- specularmap tab
  mode_spec : Nat
  spec_redMul : ℚ
  spec_greenMul : ℚ
  spec_blueMul : ℚ
  spec_alphaMul : ℚ
  spec_scale : ℚ
  spec_contrast : ℚ
  -- displacementmap tab
  mode_displace : Nat
  displace_redMul : ℚ
  displace_greenMul : ℚ
  displace_blueMul : ℚ
  displace_scale : ℚ
  displace_contrast : ℚ
  displace_blur : Bool
  displace_blurRadius : Nat
  displace_blur_tileable : Bool
  -- normalmap tab
  mode_normal : Nat
  methodIdx : Nat
  strength : ℚ
  invertHeight : Bool
  tileable : Bool
  useRed_normal : Bool
  useGreen_normal : Bool
  useBlue_normal : Bool
  useAlpha_normal : Bool
  keepLargeDetail : Bool
  largeDetailScale : Int
  largeDetailHeight : ℚ
  normalmapSize : Nat
  -- ssao tab
  ssao_size : ℚ
  ssao_samples : Nat
  ssao_noiseTexSize : Nat
  -- autoupdate controls
  autoUpdate_checked : Bool
  autoUpdate_enabled : Bool
  autoUpdateThreshold : ℚ
  -- queue generation checkboxes
  queue_generateNormal : Bool
  queue_generateSpec : Bool
  queue_generateDisplace : Bool
  -- channel intensity display controls
  displayChannelIntensity_checked : Bool
  displayRed : Bool
  displayGreen : Bool
  displayBlue : Bool
  -- current tab of the tab widget
  tab : Nat
deriving DecidableEq

/-- comboBox index to IntensityMap mode, as decoded in the calc slots
(index 0 = AVERAGE, index 1 = MAX, anything else left at AVERAGE). -/
def modeOfIndex (i : Nat) : Mode :=
  if i = 0 then .AVERAGE else if i = 1 then .MAX else .AVERAGE

/-- comboBox index to kernel, as decoded in calcNormal. -/
def kernelOfIndex (i : Nat) : Kernel :=
  if i = 0 then .SOBEL else if i = 1 then .PREWITT else .SOBEL

/-- MainWindow::calcPercentage: (int)(((double)value / 100.0) * percentage)
(exact integer truncation for the sizes involved). -/
def calcPercentage (value percentage : Nat) : Nat := value * percentage / 100

/-- The input image possibly rescaled before normal-map generation
(QImage::scaled is external; the requested target size is recorded). -/
inductive ScaledInput where
  | original (img : Image)
  | scaled (img : Image) (w h : Nat)
deriving DecidableEq

/-- Dimensions of the (possibly rescaled) generator input.  Modelled from
the spec: the generated normal map has the dimensions of its source
(spec 4.2); Qt's KeepAspectRatio adjustment of the requested size is not
modelled (no claim depends on it). -/
def ScaledInput.dims : ScaledInput → Nat × Nat
  | .original img => (img.width, img.height)
  | .scaled _ w h => (w, h)

/-- Modelled from the spec: `NormalmapGenerator::calculateNormalmap` is a
pure, deterministic function of its arguments (spec 5); its source is not
in the repository snapshot and its pixel content (unit-length normal
encoding) is irrational, so its result is represented by the full argument
tuple of the call.  Two results are equal exactly when the generator was
invoked with the same source and parameters. -/
structure NormalmapResult where
  mode : Mode
  useRed : Bool
  useGreen : Bool
  useBlue : Bool
  useAlpha : Bool
  input : ScaledInput
  kernel : Kernel
  strength : ℚ
  invert : Bool
  tileable : Bool
  keepLargeDetail : Bool
  largeDetailScale : Int
  largeDetailHeight : ℚ
deriving DecidableEq

/-- The `normalmapRawIntensity` member: either the intensity map exposed by
a normal-map generation, or a QImage::scaled copy of it. -/
inductive RawIntensity where
  | fromGenerator (call : NormalmapResult)
  | scaledTo (base : RawIntensity) (w h : Nat)
deriving DecidableEq

/-- Modelled from the spec: `SsaoGenerator::calculateSsaomap` is a pure,
deterministic function of its arguments (spec 5); its source is not in the
repository snapshot, so its result is represented by the argument tuple. -/
structure SsaoResult where
  normalmap : NormalmapResult
  depth : Option RawIntensity
  size : ℚ
  samples : Nat
  noiseTexSize : Nat
deriving DecidableEq

/-- The mutable state of MainWindow: the loaded input, the stored generated
maps (`QImage()` null images become `none`), timing fields, the stop flag,
the processing queue's items and the export path. -/
structure MWState where
  ui : Settings
  input : Option Image
  channelIntensity : Option Image
  normalmap : Option NormalmapResult
  normalmapRawIntensity : Option RawIntensity
  specmap : Option Image
  displacementmap : Option Image
  ssaomap : Option SsaoResult
  lastCalctime_normal : ℚ
  lastCalctime_specular : ℚ
  lastCalctime_displace : ℚ
  lastCalctime_ssao : ℚ
  stopQueue : Bool
  exportPath : Option String
  loadedImagePath : Option Url
  queue : List Url
deriving DecidableEq

/-- Default UI values (the concrete defaults live in the .ui file, which is
not part of the snapshot; no claim depends on them). -/
def defaultSettings : Settings where
  mode_spec := 0
  spec_redMul := 0
  spec_greenMul := 0
  spec_blueMul := 0
  spec_alphaMul := 0
  spec_scale := 1
  spec_contrast := 1
  mode_displace := 0
  displace_redMul := 0
  displace_greenMul := 0
  displace_blueMul := 0
  displace_scale := 1
  displace_contrast := 1
  displace_blur := false
  displace_blurRadius := 0
  displace_blur_tileable := false
  mode_normal := 0
  methodIdx := 0
  strength := 1
  invertHeight := false
  tileable := false
  useRed_normal := true
  useGreen_normal := true
  useBlue_normal := true
  useAlpha_normal := false
  keepLargeDetail := true
  largeDetailScale := 100
  largeDetailHeight := 1
  normalmapSize := 100
  ssao_size := 1
  ssao_samples := 1
  ssao_noiseTexSize := 1
  autoUpdate_checked := false
  autoUpdate_enabled := false
  autoUpdateThreshold := 1/2
  queue_generateNormal := true
  queue_generateSpec := true
  queue_generateDisplace := true
  displayChannelIntensity_checked := false
  displayRed := true
  displayGreen := false
  displayBlue := false
  tab := 0

/-- The state of MainWindow after its constructor: null images, zero
calculation times, lowered stop flag, empty queue. -/
def initialState : MWState where
  ui := defaultSettings
  input := none
  channelIntensity := none
  normalmap := none
  normalmapRawIntensity := none
  specmap := none
  displacementmap := none
  ssaomap := none
  lastCalctime_normal := 0
  lastCalctime_specular := 0
  lastCalctime_displace := 0
  lastCalctime_ssao := 0
  stopQueue := false
  exportPath := none
  loadedImagePath := none
  queue := []

/-! ## MainWindow::load and its helpers (mainwindow.cpp lines 113-197) -/

/-- Lines 156-169: the auto-configuration of the keep-large-detail settings
from the longest image side.  The C++ initializer
`int largeDetailScale = -0.037 * imageSize + 100;` converts the double to
int by truncation toward zero; for every size at which the value is used
(size at most 2300, where the double product is exact enough that the
truncated double equals the truncated exact value) this is
`Int.tdiv (100000 - 37 * size) 1000`.  Returns (checkbox state, spin-box
value). -/
def loadAutoLargeDetail (imageSize : Nat) : Bool × Int :=
  let largeDetailScale : Int := Int.tdiv (100000 - 37 * (imageSize : Int)) 1000
  if imageSize < 300 then (false, largeDetailScale)
  else if imageSize > 2300 then (true, 20)
  else (true, largeDetailScale)

/-- Rounding to the nearest integer (half away from zero for the positive
values involved), the reading of the spec's `round`. -/
def qround (q : ℚ) : Int := ⌊q + 1/2⌋

/-- The single-channel intensity grid selected by the display radio
buttons (red, green, blue, else alpha) - lines 656-664. -/
def channelIntensityOf (ui : Settings) (img : Image) : IntensityGrid :=
  if ui.displayRed then intensityFromImage img .AVERAGE true false false false
  else if ui.displayGreen then intensityFromImage img .AVERAGE false true false false
  else if ui.displayBlue then intensityFromImage img .AVERAGE false false true false
  else intensityFromImage img .AVERAGE false false false true

/-- MainWindow::displayChannelIntensity (lines 652-668): build a
single-channel intensity map of the input, selected by the radio buttons,
and store its re-encoding. -/
def displayChannelIntensity (s : MWState) : MWState :=
  match s.input with
  | none => s
  | some img =>
    { s with channelIntensity := some (intensityToQImage (channelIntensityOf s.ui img)) }

/-- The user-visible error reporting of a failed load. -/
structure LoadReport where
  statusErrorShown : Bool
  dialogMessage : Option String
deriving DecidableEq

/-- The dialog text of a failed load (lines 128-135): a TGA-specific hint
when the file suffix is tga, a generic hint otherwise. -/
def loadErrorMessage (url : Url) : String :=
  "Image not loaded!" ++
    (if qtToLower (suffixOf url.fileName) = "tga"
     then "\nOnly uncompressed TGA files are supported."
     else "\nMost likely the image format is not supported.")

/-- The successful tail of MainWindow::load (lines 142-196), entered with
the freshly decoded image already stored in `input`: remember the paths,
enable auto-update, auto-configure the keep-large-detail settings, switch
to the input tab, clear all previously generated maps, and refresh the
channel-intensity display when it is enabled.  (Pure UI side effects -
button enabling, preview, zoom, status bar - have no state fields.) -/
def loadSuccessTail (url : Url) (img : Image) (s : MWState) : MWState :=
  let s := { s with
    exportPath := if s.exportPath = none then some url.dir else s.exportPath,
    loadedImagePath := some url }
  let auto := loadAutoLargeDetail (max img.width img.height)
  let s := { s with ui := { s.ui with
    autoUpdate_enabled := true,
    keepLargeDetail := auto.1,
    largeDetailScale := auto.2,
    tab := 0 } }
  let s := { s with
    channelIntensity := none,
    normalmap := none,
    specmap := none,
    displacementmap := none,
    ssaomap := none }
  if s.ui.displayChannelIntensity_checked then displayChannelIntensity s else s

/-- MainWindow::load (lines 113-197).  `decode` is the external raster
codec (the QImage file constructor): `none` when the file cannot be read or
decoded.  An invalid URL hits the C++ `throw` (the Except error); otherwise
the decode result overwrites `input` before it is validated, and a null
decode reports the failure and returns false. -/
def load (decode : Url → Option Image) (url : Url) (s : MWState) :
    Except String (Bool × MWState × LoadReport) :=
  if ¬ url.valid then .error "[load] invalid url!"
  else
    let s := { s with input := decode url }
    match decode url with
    | none =>
      .ok (false, s, { statusErrorShown := true, dialogMessage := some (loadErrorMessage url) })
    | some img =>
      .ok (true, loadSuccessTail url img s, { statusErrorShown := false, dialogMessage := none })

/-! ## The four map-calculation slots (mainwindow.cpp lines 208-335) -/

/-- Lines 242-250: rescale the input when the size spin box is not 100%. -/
def scaledInputOf (img : Image) (sizePercent : Nat) : ScaledInput :=
  if sizePercent ≠ 100 then
    .scaled img (calcPercentage img.width sizePercent) (calcPercentage img.height sizePercent)
  else .original img

/-- MainWindow::calcNormal (lines 208-256): null-input guard, then invoke
the normal-map generator with the UI parameters and store its result and
raw intensity map. -/
def calcNormal (s : MWState) : MWState :=
  match s.input with
  | none => s
  | some img =>
    let call : NormalmapResult :=
      { mode := modeOfIndex s.ui.mode_normal
        useRed := s.ui.useRed_normal
        useGreen := s.ui.useGreen_normal
        useBlue := s.ui.useBlue_normal
        useAlpha := s.ui.useAlpha_normal
        input := scaledInputOf img s.ui.normalmapSize
        kernel := kernelOfIndex s.ui.methodIdx
        strength := s.ui.strength
        invert := s.ui.invertHeight
        tileable := s.ui.tileable
        keepLargeDetail := s.ui.keepLargeDetail
        largeDetailScale := s.ui.largeDetailScale
        largeDetailHeight := s.ui.largeDetailHeight }
    { s with normalmap := some call, normalmapRawIntensity := some (.fromGenerator call) }

/-- MainWindow::calcSpec (lines 258-280): null-input guard, then the
specular-map generator with the specular-tab parameters. -/
def calcSpec (s : MWState) : MWState :=
  match s.input with
  | none => s
  | some img =>
    { s with specmap := some (calculateSpecmap (modeOfIndex s.ui.mode_spec)
        ⟨s.ui.spec_redMul, s.ui.spec_greenMul, s.ui.spec_blueMul, s.ui.spec_alphaMul⟩
        img s.ui.spec_scale s.ui.spec_contrast) }

/-- Lines 306-314: the optional displacement blur stage - rebuild an
intensity map from the map (AVERAGE mode; the two-argument IntensityMap
constructor is modelled from the spec as selecting all four channels), box
blur it, and re-encode. -/
def displaceBlurStage (m : Image) (radius : Nat) (tileable : Bool) : Image :=
  intensityToQImage (boxBlur (intensityFromImage m .AVERAGE true true true true) radius tileable)

/-- MainWindow::calcDisplace (lines 282-315): null-input guard, the
specular-map generator with the displacement-tab parameters and a zeroed
alpha multiplier, then the optional blur stage. -/
def calcDisplace (s : MWState) : MWState :=
  match s.input with
  | none => s
  | some img =>
    let dm := calculateSpecmap (modeOfIndex s.ui.mode_displace)
      ⟨s.ui.displace_redMul, s.ui.displace_greenMul, s.ui.displace_blueMul, 0⟩
      img s.ui.displace_scale s.ui.displace_contrast
    let dm := if s.ui.displace_blur
      then displaceBlurStage dm s.ui.displace_blurRadius s.ui.displace_blur_tileable
      else dm
    { s with displacementmap := some dm }

/-- MainWindow::calcSsao (lines 317-335): null-input guard; generate the
normal map first when none exists yet; rescale the raw intensity map to the
normal map's dimensions; invoke the SSAO generator. -/
def calcSsao (s : MWState) : MWState :=
  match s.input with
  | none => s
  | some _ =>
    let s1 := if s.normalmap = none then calcNormal s else s
    match s1.normalmap with
    | none => s1
    | some nm =>
      let dims := nm.input.dims
      let raw := s1.normalmapRawIntensity.map (fun r => RawIntensity.scaledTo r dims.1 dims.2)
      { s1 with
        normalmapRawIntensity := raw,
        ssaomap := some
          { normalmap := nm
            depth := raw
            size := s1.ui.ssao_size
            samples := s1.ui.ssao_samples
            noiseTexSize := s1.ui.ssao_noiseTexSize } }

/-! ## Calc-and-preview wrappers and autoUpdate (lines 338-420, 673-701) -/

/-- MainWindow::calcNormalAndPreview: run calcNormal and record the
elapsed calculation time (`elapsed`, milliseconds, measured externally by
QElapsedTimer).  The trailing preview call only recalculates a map that is
still null, which cannot be the case here, so it has no state effect. -/
def calcNormalAndPreview (elapsed : ℚ) (s : MWState) : MWState :=
  { calcNormal s with lastCalctime_normal := elapsed }

/-- MainWindow::calcSpecAndPreview, as `calcNormalAndPreview`. -/
def calcSpecAndPreview (elapsed : ℚ) (s : MWState) : MWState :=
  { calcSpec s with lastCalctime_specular := elapsed }

/-- MainWindow::calcDisplaceAndPreview, as `calcNormalAndPreview`. -/
def calcDisplaceAndPreview (elapsed : ℚ) (s : MWState) : MWState :=
  { calcDisplace s with lastCalctime_displace := elapsed }

/-- MainWindow::calcSsaoAndPreview, as `calcNormalAndPreview`. -/
def calcSsaoAndPreview (elapsed : ℚ) (s : MWState) : MWState :=
  { calcSsao s with lastCalctime_ssao := elapsed }

/-- MainWindow::autoUpdate (lines 673-701): recompute the current tab's
map, but only when the auto-update checkbox is checked and enabled and the
last calculation of that map stayed below the threshold. -/
def autoUpdate (elapsed : ℚ) (s : MWState) : MWState :=
  if ¬ (s.ui.autoUpdate_checked ∧ s.ui.autoUpdate_enabled) then s
  else
    let threshold := s.ui.autoUpdateThreshold * 1000
    match s.ui.tab with
    | 1 => if s.lastCalctime_normal < threshold then calcNormalAndPreview elapsed s else s
    | 2 => if s.lastCalctime_specular < threshold then calcSpecAndPreview elapsed s else s
    | 3 => if s.lastCalctime_displace < threshold then calcDisplaceAndPreview elapsed s else s
    | 4 => if s.lastCalctime_ssao < threshold then calcSsaoAndPreview elapsed s else s
    | _ => s

/-- The effect of editing the specular red-multiplier spin box: the widget
stores the new value and its valueChanged signal runs the autoUpdate slot
(connectSignalSlots, line 820). -/
def changeSpecRedMul (v : ℚ) (elapsed : ℚ) (s : MWState) : MWState :=
  autoUpdate elapsed { s with ui := { s.ui with spec_redMul := v } }

/-! ## Drag-and-drop loading (mainwindow.cpp lines 85-111) -/

/-- Line 92: the supported-format list, stored as one string. -/
def supportedFormats : String := "png jpg jpeg tiff ppm bmp xpm tga"

/-- Line 94: the format test applied to each dropped URL -
`supported.contains(suffix)` on the lower-cased file-name suffix
(QString substring containment). -/
def formatAccepted (u : Url) : Bool :=
  qstrContains supportedFormats (qtToLower (suffixOf u.fileName))

/-- MainWindow::addImageToQueue (lines 747-750). -/
def addImageToQueue (u : Url) (s : MWState) : MWState :=
  { s with queue := s.queue ++ [u] }

/-- The loop of MainWindow::loadMultipleDropped, with the
containedInvalidFormat and loadedFirstValidImage flags as accumulators. -/
def loadMultipleDroppedLoop (decode : Url → Option Image) :
    List Url → Bool → Bool → MWState → Except String (MWState × Bool)
  | [], containedInvalid, _, s => .ok (s, containedInvalid)
  | u :: rest, containedInvalid, loadedFirst, s =>
    if formatAccepted u then
      let s := addImageToQueue u s
      if ¬ loadedFirst then
        match load decode u s with
        | .error e => .error e
        | .ok (_, s1, _) => loadMultipleDroppedLoop decode rest containedInvalid true s1
      else loadMultipleDroppedLoop decode rest containedInvalid true s
    else loadMultipleDroppedLoop decode rest true loadedFirst s

/-- MainWindow::loadMultipleDropped (lines 85-111): queue every dropped URL
whose format passes the test, load-and-preview the first one that does, and
return whether the not-all-loaded notice dialog is shown. -/
def loadMultipleDropped (decode : Url → Option Image) (urls : List Url) (s : MWState) :
    Except String (MWState × Bool) :=
  loadMultipleDroppedLoop decode urls false false s

/-! ## Saving (mainwindow.cpp lines 488-536) -/

/-- The target of a save: validity, directory (QFileInfo::absolutePath) and
file name of the chosen URL. -/
structure SaveUrl where
  valid : Bool
  dir : String
  fileName : String
deriving DecidableEq

/-- Lines 493-508: the three output file names.  The suffix is taken from
the chosen file name; a tga suffix (case-insensitive) is replaced by png
because Qt cannot write TGA. -/
def savedMapNames (u : SaveUrl) : String × String × String :=
  let suffix := suffixOf u.fileName
  let suffix := if qtToLower suffix = "tga" then "png" else suffix
  let base := qtBaseName u.fileName
  (u.dir ++ "/" ++ base ++ "_normal." ++ suffix,
   u.dir ++ "/" ++ base ++ "_spec." ++ suffix,
   u.dir ++ "/" ++ base ++ "_displace." ++ suffix)

/-- MainWindow::save (lines 488-536): write each generated map that exists
and whose queue checkbox is checked under its derived name, then remember
the export path.  Returns the new state and the list of file names written
(the external encoder is modelled as succeeding; an encoder failure only
changes the message shown). -/
def save (u : SaveUrl) (s : MWState) : MWState × List String :=
  if ¬ u.valid then (s, [])
  else
    let names := savedMapNames u
    let written :=
      (if s.normalmap ≠ none ∧ s.ui.queue_generateNormal then [names.1] else []) ++
      (if s.specmap ≠ none ∧ s.ui.queue_generateSpec then [names.2.1] else []) ++
      (if s.displacementmap ≠ none ∧ s.ui.queue_generateDisplace then [names.2.2] else [])
    ({ s with exportPath := some u.dir }, written)

/-! ## Queue processing (mainwindow.cpp lines 422-477) -/

/-- The externally observable calls made while processing queue items. -/
inductive ProcEvent where
  | loadEv (i : Nat)
  | calcNormalEv (i : Nat)
  | calcSpecEv (i : Nat)
  | calcDisplaceEv (i : Nat)
  | saveEv (i : Nat)
deriving DecidableEq

/-- Process one queue item (loop body, lines 436-464): load it, run the
calculators selected by the queue checkboxes, save under the export path. -/
def processItem (decode : Url → Option Image) (i : Nat) (u : Url) (s : MWState) :
    Except String (MWState × List ProcEvent) :=
  match load decode u s with
  | .error e => .error e
  | .ok (_, s1, _) =>
    let s2 := if s1.ui.queue_generateNormal then calcNormal s1 else s1
    let s3 := if s2.ui.queue_generateSpec then calcSpec s2 else s2
    let s4 := if s3.ui.queue_generateDisplace then calcDisplace s3 else s3
    let exportDir := match s4.exportPath with | some d => d | none => ""
    let s5 := (save ⟨true, exportDir, u.fileName⟩ s4).1
    .ok (s5, [.loadEv i] ++
      (if s1.ui.queue_generateNormal then [.calcNormalEv i] else []) ++
      (if s2.ui.queue_generateSpec then [.calcSpecEv i] else []) ++
      (if s3.ui.queue_generateDisplace then [.calcDisplaceEv i] else []) ++
      [.saveEv i])

/-- The for loop of MainWindow::processQueue: the stop flag is read in the
loop condition, before each item; `stopSig i` tells whether the stop button
was clicked during item i's QCoreApplication::processEvents call (the only
point at which the stopProcessingQueue slot can run). -/
def processLoop (decode : Url → Option Image) (stopSig : Nat → Bool) :
    List Url → Nat → MWState → Except String (MWState × List ProcEvent)
  | [], _, s => .ok (s, [])
  | u :: rest, i, s =>
    if s.stopQueue then .ok (s, [])
    else
      match processItem decode i u s with
      | .error e => .error e
      | .ok (s1, evs) =>
        let s2 := { s1 with stopQueue := s1.stopQueue || stopSig i }
        match processLoop decode stopSig rest (i + 1) s2 with
        | .error e => .error e
        | .ok (s3, evs2) => .ok (s3, evs ++ evs2)

/-- MainWindow::processQueue (lines 422-472): nothing happens on an empty
queue or an invalid export path; otherwise the loop runs and the stop flag
is lowered afterwards. -/
def processQueue (decode : Url → Option Image) (stopSig : Nat → Bool) (s : MWState) :
    Except String (MWState × List ProcEvent) :=
  if s.queue.length = 0 then .ok (s, [])
  else if s.exportPath = none then .ok (s, [])
  else
    match processLoop decode stopSig s.queue 0 s with
    | .error e => .error e
    | .ok (s1, evs) => .ok ({ s1 with stopQueue := false }, evs)

/-- MainWindow::stopProcessingQueue (lines 475-477). -/
def stopProcessingQueue (s : MWState) : MWState := { s with stopQueue := true }

/-! ## Claim-side definitions: spec readings and concrete instances -/

/-- The eight supported suffixes named by the spec. -/
def supportedSuffixList : List String :=
  ["png", "jpg", "jpeg", "tiff", "ppm", "bmp", "xpm", "tga"]

/-- A one-pixel red image used as concrete test content. -/
def demoImage : Image := [[⟨255, 0, 0, 255⟩]]

/-- A one-row two-pixel image (bright, dark) on which a box blur visibly
changes the pixel values. -/
def blurDemoImage : Image := [[⟨255, 0, 0, 255⟩, ⟨0, 0, 0, 255⟩]]

/-- The specular map that calcSpec stores for a given input image: the
generator applied with the specular-tab parameters (lines 262-279). -/
def specGenOf (s : MWState) (img : Image) : Image :=
  calculateSpecmap (modeOfIndex s.ui.mode_spec)
    ⟨s.ui.spec_redMul, s.ui.spec_greenMul, s.ui.spec_blueMul, s.ui.spec_alphaMul⟩
    img s.ui.spec_scale s.ui.spec_contrast

/-- The displacement map before its optional blur stage: the generator
applied with the displacement-tab parameters and alpha weight 0
(lines 287-304). -/
def displaceGenOf (s : MWState) (img : Image) : Image :=
  calculateSpecmap (modeOfIndex s.ui.mode_displace)
    ⟨s.ui.displace_redMul, s.ui.displace_greenMul, s.ui.displace_blueMul, 0⟩
    img s.ui.displace_scale s.ui.displace_contrast

/-- The pre-blur displacement map of the current input, when one is
loaded. -/
def displacePreBlur (s : MWState) : Option Image := s.input.map (displaceGenOf s)

/-- Copy the displacement-tab generation parameters into the specular-tab
fields, with the alpha multiplier fixed to 0 (the parameter transfer that
claim C5 compares against). -/
def withSpecParamsFromDisplace (s : MWState) : MWState :=
  { s with ui := { s.ui with
      mode_spec := s.ui.mode_displace,
      spec_redMul := s.ui.displace_redMul,
      spec_greenMul := s.ui.displace_greenMul,
      spec_blueMul := s.ui.displace_blueMul,
      spec_alphaMul := 0,
      spec_scale := s.ui.displace_scale,
      spec_contrast := s.ui.displace_contrast } }

/-- The specular map computed from demoImage with red and green
multipliers 1 (neutral scale and contrast). -/
def c3oldMap : Image := calculateSpecmap .AVERAGE ⟨1, 1, 0, 0⟩ demoImage 1 1

/-- A window state holding demoImage and its specular map, with auto-update
switched off. -/
def c3state : MWState :=
  { initialState with
    input := some demoImage,
    specmap := some c3oldMap,
    ui := { defaultSettings with
      spec_redMul := 1, spec_greenMul := 1, autoUpdate_checked := false } }

/-- A window state with blurDemoImage loaded, a red-only specular weight,
and the (displacement) blur stage enabled with radius 1. -/
def c4state : MWState :=
  { initialState with
    input := some blurDemoImage,
    ui := { defaultSettings with
      spec_redMul := 1,
      displace_blur := true, displace_blurRadius := 1, displace_blur_tileable := false } }

/-- A window state with a two-item queue and a set export path, ready for
queue processing. -/
def c9state : MWState :=
  { initialState with
    queue := [⟨true, "", "a.png"⟩, ⟨true, "", "b.png"⟩],
    exportPath := some "/out" }

/-- The calls one queue item generates when fully processed: its load, the
selected calculators, its save. -/
def itemTrace (gN gS gD : Bool) (i : Nat) : List ProcEvent :=
  [.loadEv i] ++ (if gN then [.calcNormalEv i] else []) ++
    (if gS then [.calcSpecEv i] else []) ++ (if gD then [.calcDisplaceEv i] else []) ++
    [.saveEv i]

/-- The trace claim C9 predicts for the queue loop from item i on: each
item is processed in full, and the loop stops after the first item during
whose processing the stop button was clicked. -/
def expectedTrace (gN gS gD : Bool) (stopSig : Nat → Bool) :
    List Url → Nat → List ProcEvent
  | [], _ => []
  | _ :: rest, i =>
    itemTrace gN gS gD i ++
      (if stopSig i then [] else expectedTrace gN gS gD stopSig rest (i + 1))

/-! ## Claim C1: auto-configuration of the keep-large-detail settings -/

/-- Claim C1, counterexample: at longest side 300 (not below the 300
threshold, not above 2300), the code truncates -0.037*300 + 100 = 88.9 to a
scale of 88, while the claimed formula round(-0.037*300 + 100) gives 89. -/
theorem c1_counterexample :
    loadAutoLargeDetail 300 = (true, 88) ∧
    qround (((100000 : ℚ) - 37 * 300) / 1000) = 89 := by
  constructor
  · decide
  · unfold qround
    norm_num [Int.floor_eq_iff]

/-- Claim C1 (amended): on every successful load, keep-large-detail is
auto-disabled exactly when the longest side is below 300; for sizes above
2300 the scale is clamped to 20; otherwise the scale is the linear value
-0.037*size + 100 truncated to an integer (the floor, since the value is
positive), not rounded to nearest. -/
theorem c1_amended (s : Nat) :
    ((loadAutoLargeDetail s).1 = true ↔ 300 ≤ s) ∧
    (s ≤ 2300 → (loadAutoLargeDetail s).2 = ⌊((100000 : ℚ) - 37 * s) / 1000⌋) ∧
    (2300 < s → (loadAutoLargeDetail s).2 = 20) := by
  refine ⟨?_, ?_, ?_⟩
  · unfold loadAutoLargeDetail
    by_cases h : s < 300
    · simp [h]
    · simp only [h, if_false]
      by_cases h2 : s > 2300 <;> simp [h2] <;> omega
  · intro hle
    have h2 : ¬ s > 2300 := by omega
    have hfloor : Int.tdiv (100000 - 37 * (s : Int)) 1000 =
        ⌊((100000 : ℚ) - 37 * s) / 1000⌋ := by
      rw [Int.tdiv_eq_ediv (by omega) (by norm_num)]
      rw [show ((100000 : ℚ) - 37 * s) = ((100000 - 37 * (s : Int) : Int) : ℚ) by push_cast; ring]
      rw [show (1000 : ℚ) = ((1000 : ℕ) : ℚ) by norm_num]
      exact (Rat.floor_intCast_div_natCast _ _).symm
    unfold loadAutoLargeDetail
    by_cases h : s < 300 <;> simp [h, h2, hfloor]
  · intro hgt
    have h : ¬ s < 300 := by omega
    unfold loadAutoLargeDetail
    simp [h, hgt]

/-- Claim C1, witness for the amended theorem at size 500. -/
theorem c1_amended_witness :
    (((loadAutoLargeDetail 500).1 = true ↔ 300 ≤ 500)) ∧
    ((500 : Nat) ≤ 2300 ∧
      (loadAutoLargeDetail 500).2 = ⌊((100000 : ℚ) - 37 * (500 : Nat)) / 1000⌋) :=
  ⟨(c1_amended 500).1, by norm_num, (c1_amended 500).2.1 (by norm_num)⟩

/-! ## Claim C6: null-input guards of the four calculators -/

/-- Claim C6: when no input image is loaded, calcNormal, calcSpec,
calcDisplace and calcSsao each return immediately, leaving the whole state
(in particular every stored map) unchanged - a neutral no-op, not an
error. -/
theorem c6_null_input_noop (s : MWState) (h : s.input = none) :
    calcNormal s = s ∧ calcSpec s = s ∧ calcDisplace s = s ∧ calcSsao s = s := by
  refine ⟨?_, ?_, ?_, ?_⟩ <;> simp [calcNormal, calcSpec, calcDisplace, calcSsao, h]

/-- Claim C6, witness: the guard at the freshly constructed window. -/
theorem c6_null_input_noop_witness :
    calcNormal initialState = initialState ∧ calcSpec initialState = initialState ∧
    calcDisplace initialState = initialState ∧ calcSsao initialState = initialState :=
  c6_null_input_noop initialState rfl

/-! ## Preservation lemmas about load -/

lemma dci_queue (s : MWState) : (displayChannelIntensity s).queue = s.queue := by
  unfold displayChannelIntensity; split <;> rfl

lemma dci_stopQueue (s : MWState) : (displayChannelIntensity s).stopQueue = s.stopQueue := by
  unfold displayChannelIntensity; split <;> rfl

lemma dci_exportPath (s : MWState) : (displayChannelIntensity s).exportPath = s.exportPath := by
  unfold displayChannelIntensity; split <;> rfl

lemma dci_ui (s : MWState) : (displayChannelIntensity s).ui = s.ui := by
  unfold displayChannelIntensity; split <;> rfl

lemma loadSuccessTail_queue (url : Url) (img : Image) (s : MWState) :
    (loadSuccessTail url img s).queue = s.queue := by
  simp only [loadSuccessTail]
  split <;> split <;> simp [dci_queue]

lemma loadSuccessTail_stopQueue (url : Url) (img : Image) (s : MWState) :
    (loadSuccessTail url img s).stopQueue = s.stopQueue := by
  simp only [loadSuccessTail]
  split <;> split <;> simp [dci_stopQueue]

lemma loadSuccessTail_queueFlags (url : Url) (img : Image) (s : MWState) :
    (loadSuccessTail url img s).ui.queue_generateNormal = s.ui.queue_generateNormal ∧
    (loadSuccessTail url img s).ui.queue_generateSpec = s.ui.queue_generateSpec ∧
    (loadSuccessTail url img s).ui.queue_generateDisplace = s.ui.queue_generateDisplace := by
  simp only [loadSuccessTail]
  split <;> split <;> simp [dci_ui]

lemma loadSuccessTail_exportPath (url : Url) (img : Image) (s : MWState) (d : String)
    (h : s.exportPath = some d) : (loadSuccessTail url img s).exportPath = some d := by
  simp only [loadSuccessTail, h]
  split <;> split <;> simp_all [dci_exportPath]

/-- A load of a valid URL never raises, and it preserves the queue, the
stop flag, the queue-generation checkboxes and a nonempty export path. -/
lemma load_ok (decode : Url → Option Image) (u : Url) (s : MWState)
    (hv : u.valid = true) :
    ∃ b s1 r, load decode u s = .ok (b, s1, r) ∧
      s1.queue = s.queue ∧ s1.stopQueue = s.stopQueue ∧
      s1.ui.queue_generateNormal = s.ui.queue_generateNormal ∧
      s1.ui.queue_generateSpec = s.ui.queue_generateSpec ∧
      s1.ui.queue_generateDisplace = s.ui.queue_generateDisplace ∧
      (∀ d, s.exportPath = some d → s1.exportPath = some d) := by
  cases hd : decode u with
  | none =>
    refine ⟨false, { s with input := none },
      { statusErrorShown := true, dialogMessage := some (loadErrorMessage u) },
      ?_, rfl, rfl, rfl, rfl, rfl, fun d hd2 => hd2⟩
    simp [load, hv, hd]
  | some img =>
    refine ⟨true, loadSuccessTail u img { s with input := some img },
      { statusErrorShown := false, dialogMessage := none },
      ?_, ?_, ?_, ?_, ?_, ?_, ?_⟩
    · simp [load, hv, hd]
    · exact loadSuccessTail_queue u img _
    · exact loadSuccessTail_stopQueue u img _
    · exact (loadSuccessTail_queueFlags u img _).1
    · exact (loadSuccessTail_queueFlags u img _).2.1
    · exact (loadSuccessTail_queueFlags u img _).2.2
    · intro d hd2
      exact loadSuccessTail_exportPath u img { s with input := some img } d hd2

/-! ## Claim C2: the dropped-URL format filter -/

/-- Claim C2, counterexample: the URL a.jp is queued - its suffix jp passes
the QString::contains substring test against
"png jpg jpeg tiff ppm bmp xpm tga" - and no not-all-loaded notice is
shown, although jp is not one of the supported formats. -/
theorem c2_counterexample :
    loadMultipleDropped (fun _ => none) [⟨true, "", "a.jp"⟩] initialState =
      .ok ({ initialState with input := none, queue := [⟨true, "", "a.jp"⟩] }, false) ∧
    ¬ qtToLower (suffixOf "a.jp") ∈ supportedSuffixList := by
  constructor
  · rfl
  · decide

/-- The loop invariant behind claim C2: the queue gains exactly the URLs
accepted by the substring test, and the notice flag becomes true exactly
when some URL fails it. -/
lemma lmdLoop_spec (decode : Url → Option Image) (urls : List Url) :
    ∀ (ci lf : Bool) (s : MWState), (∀ u ∈ urls, u.valid = true) →
    ∃ s1, loadMultipleDroppedLoop decode urls ci lf s =
        .ok (s1, ci || urls.any (fun u => !(formatAccepted u))) ∧
      s1.queue = s.queue ++ urls.filter (fun u => formatAccepted u) := by
  induction urls with
  | nil =>
    intro ci lf s _
    exact ⟨s, by simp [loadMultipleDroppedLoop], by simp⟩
  | cons u rest ih =>
    intro ci lf s h
    have hu : u.valid = true := h u (by simp)
    have hrest : ∀ v ∈ rest, v.valid = true := fun v hv => h v (by simp [hv])
    unfold loadMultipleDroppedLoop
    by_cases hf : formatAccepted u
    · simp only [hf, if_true]
      cases lf with
      | true =>
        rw [if_neg (by simp)]
        obtain ⟨s1, heq, hq⟩ := ih ci true (addImageToQueue u s) hrest
        refine ⟨s1, ?_, ?_⟩
        · rw [heq]; simp [hf]
        · rw [hq]; simp [addImageToQueue, hf]
      | false =>
        rw [if_pos (by simp)]
        obtain ⟨b, sL, r, hload, hLq, _, _, _, _, _⟩ :=
          load_ok decode u (addImageToQueue u s) hu
        rw [hload]
        dsimp only
        obtain ⟨s1, heq, hq⟩ := ih ci true sL hrest
        refine ⟨s1, ?_, ?_⟩
        · rw [heq]; simp [hf]
        · rw [hq, hLq]; simp [addImageToQueue, hf]
    · simp only [hf, if_false]
      obtain ⟨s1, heq, hq⟩ := ih true lf s hrest
      refine ⟨s1, ?_, ?_⟩
      · rw [heq]
        have : (!(formatAccepted u)) = true := by simp [hf]
        simp [this]
      · rw [hq]; simp [hf]

/-- Claim C2 (amended): a dropped URL is added to the processing queue if
and only if its lower-cased file-name suffix is a SUBSTRING of the string
"png jpg jpeg tiff ppm bmp xpm tga" (QString::contains), not necessarily
one of the eight formats themselves; the not-all-loaded notice is shown
exactly when at least one URL fails that substring test. -/
theorem c2_amended (decode : Url → Option Image) (urls : List Url) (s : MWState)
    (h : ∀ u ∈ urls, u.valid = true) :
    ∃ s1, loadMultipleDropped decode urls s =
        .ok (s1, urls.any (fun u => !(formatAccepted u))) ∧
      s1.queue = s.queue ++ urls.filter (fun u => formatAccepted u) := by
  have hx := lmdLoop_spec decode urls false false s h
  simpa [loadMultipleDropped] using hx

/-- Claim C2, witness for the amended theorem: one accepted and one
rejected drop. -/
theorem c2_amended_witness :
    ∃ s1, loadMultipleDropped (fun _ => none)
        [⟨true, "", "a.png"⟩, ⟨true, "", "b.txt"⟩] initialState =
        .ok (s1, ([⟨true, "", "a.png"⟩, ⟨true, "", "b.txt"⟩] : List Url).any
          (fun u => !(formatAccepted u))) ∧
      s1.queue = initialState.queue ++
        ([⟨true, "", "a.png"⟩, ⟨true, "", "b.txt"⟩] : List Url).filter
          (fun u => formatAccepted u) :=
  c2_amended (fun _ => none) [⟨true, "", "a.png"⟩, ⟨true, "", "b.txt"⟩] initialState
    (by intro u hu; simp at hu; rcases hu with h | h <;> subst h <;> rfl)

/-! ## Claim C7: load error reporting -/

/-- Claim C7, counterexample: load raises (the C++ throw at line 116) on an
invalid URL, so "load never raises an exception" is false. -/
theorem c7_counterexample :
    load (fun _ => none) ⟨false, "", "x.png"⟩ initialState = .error "[load] invalid url!" := rfl

/-- Claim C7 (amended): for every VALID URL, load never raises; a failure
to read or decode the file is reported as a recoverable error - status-bar
message plus dialog whose text carries a human-readable cause, with the
TGA-specific hint exactly for tga files - and load returns false.  Only an
invalid URL makes load throw. -/
theorem c7_amended :
    (∀ (decode : Url → Option Image) (u : Url) (s : MWState) (e : String),
      u.valid = true → load decode u s ≠ .error e) ∧
    (∀ (decode : Url → Option Image) (u : Url) (s : MWState),
      u.valid = true → decode u = none →
      load decode u s = .ok (false, { s with input := none },
        { statusErrorShown := true, dialogMessage := some (loadErrorMessage u) })) := by
  constructor
  · intro decode u s e hv
    unfold load
    rw [hv]
    cases hd : decode u <;> simp
  · intro decode u s hv hd
    unfold load
    rw [hv, hd]
    simp [hd]

/-- Claim C7, witness: a tga file that fails to decode. -/
theorem c7_amended_witness :
    (load (fun _ => none) ⟨true, "", "photo.tga"⟩ initialState ≠ .error "boom") ∧
    load (fun _ => none) ⟨true, "", "photo.tga"⟩ initialState =
      .ok (false, { initialState with input := none },
        { statusErrorShown := true,
          dialogMessage := some (loadErrorMessage ⟨true, "", "photo.tga"⟩) }) :=
  ⟨c7_amended.1 (fun _ => none) ⟨true, "", "photo.tga"⟩ initialState "boom" rfl,
   c7_amended.2 (fun _ => none) ⟨true, "", "photo.tga"⟩ initialState rfl rfl⟩

/-! ## Claim C10: a failed load discards the previous input but keeps maps -/

/-- Claim C10: load stores the decode result into the input before
validating it, so when the decode fails the previously loaded input is
discarded (input is null afterwards) while every previously generated map
is retained - the resulting state is exactly the old state with input
nulled. -/
theorem c10_failed_load_not_atomic (decode : Url → Option Image) (u : Url) (s : MWState)
    (hv : u.valid = true) (hd : decode u = none) :
    load decode u s = .ok (false, { s with input := none },
      { statusErrorShown := true, dialogMessage := some (loadErrorMessage u) }) := by
  unfold load
  rw [hv, hd]
  simp [hd]

/-- Claim C10, witness: a state that held both an input and a generated
specular map; the failed load nulls the input and keeps the map. -/
theorem c10_failed_load_not_atomic_witness :
    load (fun _ => none) ⟨true, "", "broken.png"⟩
      { initialState with input := some demoImage, specmap := some demoImage } =
      .ok (false, { { initialState with input := some demoImage, specmap := some demoImage }
          with input := none },
        { statusErrorShown := true,
          dialogMessage := some (loadErrorMessage ⟨true, "", "broken.png"⟩) }) :=
  c10_failed_load_not_atomic (fun _ => none) ⟨true, "", "broken.png"⟩
    { initialState with input := some demoImage, specmap := some demoImage } rfl rfl

/-! ## Claim C8: tga save suffix substituted with png -/

/-- Claim C8: when the chosen save file's suffix is tga in any casing, all
three generated-map file names are written with the png suffix instead, and
the substitution lives in the save boundary - the stored maps themselves
are untouched by save. -/
theorem c8_tga_saved_as_png (u : SaveUrl) (s : MWState)
    (h : qtToLower (suffixOf u.fileName) = "tga") :
    savedMapNames u = (u.dir ++ "/" ++ qtBaseName u.fileName ++ "_normal.png",
                       u.dir ++ "/" ++ qtBaseName u.fileName ++ "_spec.png",
                       u.dir ++ "/" ++ qtBaseName u.fileName ++ "_displace.png") ∧
    (save u s).1.normalmap = s.normalmap ∧ (save u s).1.specmap = s.specmap ∧
    (save u s).1.displacementmap = s.displacementmap := by
  refine ⟨?_, ?_, ?_, ?_⟩
  · simp only [savedMapNames, h, if_pos]
    rw [String.append_assoc _ "_normal." "png", String.append_assoc _ "_spec." "png",
      String.append_assoc _ "_displace." "png"]
    rfl
  all_goals unfold save; split <;> simp

/-- Claim C8, witness: saving to rock.TGA (upper-case suffix). -/
theorem c8_tga_saved_as_png_witness :
    savedMapNames ⟨true, "/out", "rock.TGA"⟩ =
      ("/out" ++ "/" ++ qtBaseName "rock.TGA" ++ "_normal.png",
       "/out" ++ "/" ++ qtBaseName "rock.TGA" ++ "_spec.png",
       "/out" ++ "/" ++ qtBaseName "rock.TGA" ++ "_displace.png") ∧
    (save ⟨true, "/out", "rock.TGA"⟩ initialState).1.normalmap = initialState.normalmap ∧
    (save ⟨true, "/out", "rock.TGA"⟩ initialState).1.specmap = initialState.specmap ∧
    (save ⟨true, "/out", "rock.TGA"⟩ initialState).1.displacementmap =
      initialState.displacementmap :=
  c8_tga_saved_as_png ⟨true, "/out", "rock.TGA"⟩ initialState (by decide)

/-! ## Concrete pixel evaluation helpers -/

/-- Evaluate the 8-bit encode: qEncode v = n when n ≤ v*255 + 1/2 < n+1. -/
lemma qEncode_eval {v : ℚ} {n : ℕ} (h1 : (n : ℚ) ≤ v * 255 + 1/2)
    (h2 : v * 255 + 1/2 < (n : ℚ) + 1) : qEncode v = n := by
  unfold qEncode
  have hfl : ⌊v * 255 + 1/2⌋ = (n : ℤ) := by
    rw [Int.floor_eq_iff]
    exact ⟨by push_cast; exact h1, by push_cast; exact h2⟩
  rw [hfl]
  simp

/-- The specular generator on c4state's red-weight settings turns the
bright/dark test strip into full white and full black. -/
lemma c4_gen_eval : specGenOf c4state blurDemoImage = [[grayPixel 255, grayPixel 0]] := by
  have e1 : qEncode (applyScale (applyContrast
      (specPixelValue .AVERAGE ⟨1, 0, 0, 0⟩ ⟨255, 0, 0, 255⟩) 1) 1) = 255 := by
    apply qEncode_eval <;>
      norm_num [specPixelValue, applyContrast, applyScale, qclamp, max_def, min_def]
  have e2 : qEncode (applyScale (applyContrast
      (specPixelValue .AVERAGE ⟨1, 0, 0, 0⟩ ⟨0, 0, 0, 255⟩) 1) 1) = 0 := by
    apply qEncode_eval <;>
      norm_num [specPixelValue, applyContrast, applyScale, qclamp, max_def, min_def]
  simp only [specGenOf, c4state, initialState, defaultSettings, calculateSpecmap,
    blurDemoImage, List.map_cons, List.map_nil, modeOfIndex, if_pos]
  norm_num [e1, e2]

/-- The all-channel AVERAGE intensity of the white/black strip. -/
lemma c4_intensity_eval :
    intensityFromImage [[grayPixel 255, grayPixel 0]] .AVERAGE true true true true =
      [[1, 1/4]] := by
  norm_num [intensityFromImage, grayPixel, channelValues, combineVals]

/-- Radius-1 clamped box blur of the 1x2 field [1, 1/4]. -/
lemma c4_blur_eval : boxBlur [[(1 : ℚ), 1/4]] 1 false = [[3/4, 1/2]] := by
  norm_num [boxBlur, blurLine, lineSample, transposeGrid, gridColumn,
    List.range_succ, max_def, min_def]
  norm_num [List.cons_ne_nil]

/-- Re-encoding the blurred field. -/
lemma c4_encode_eval : intensityToQImage [[(3 : ℚ)/4, 1/2]] = [[grayPixel 191, grayPixel 128]] := by
  have e1 : qEncode ((3 : ℚ)/4) = 191 := qEncode_eval (by norm_num) (by norm_num)
  have e2 : qEncode ((1 : ℚ)/2) = 128 := qEncode_eval (by norm_num) (by norm_num)
  simp only [intensityToQImage, List.map_cons, List.map_nil, e1, e2]

/-! ## Claim C5: displacement map = specular map with zeroed alpha -/

/-- Claim C5: for a loaded input, the displacement map calcDisplace
computes before its optional blur stage is exactly the specular map
calcSpec would compute with the same mode, red/green/blue multipliers,
scale and contrast and the alpha multiplier fixed to 0. -/
theorem c5_displacement_equals_spec_alpha0 (s : MWState) (img : Image)
    (h : s.input = some img) :
    (calcSpec (withSpecParamsFromDisplace s)).specmap = displacePreBlur s ∧
    (s.ui.displace_blur = false → (calcDisplace s).displacementmap = displacePreBlur s) := by
  constructor
  · simp [calcSpec, withSpecParamsFromDisplace, displacePreBlur, displaceGenOf, h]
  · intro hb
    simp [calcDisplace, displacePreBlur, displaceGenOf, h, hb]

/-- Claim C5, witness at c3state (blur disabled there). -/
theorem c5_displacement_equals_spec_alpha0_witness :
    (calcSpec (withSpecParamsFromDisplace c3state)).specmap = displacePreBlur c3state ∧
    (calcDisplace c3state).displacementmap = displacePreBlur c3state :=
  ⟨(c5_displacement_equals_spec_alpha0 c3state demoImage rfl).1,
   (c5_displacement_equals_spec_alpha0 c3state demoImage rfl).2 rfl⟩

/-! ## Claim C4: the optional blur stage exists only for the displacement map -/

/-- Claim C4, counterexample: in c4state the only blur controls in the
program are enabled (blur on, radius 1), the blur genuinely changes the
generated map, yet calcSpec stores the UNBLURRED generator output - there
is no blur stage for the specular map. -/
theorem c4_counterexample :
    c4state.ui.displace_blur = true ∧
    (calcSpec c4state).specmap = some (specGenOf c4state blurDemoImage) ∧
    specGenOf c4state blurDemoImage ≠
      displaceBlurStage (specGenOf c4state blurDemoImage)
        c4state.ui.displace_blurRadius c4state.ui.displace_blur_tileable := by
  refine ⟨rfl, by simp [calcSpec, specGenOf, c4state], ?_⟩
  rw [c4_gen_eval]
  show _ ≠ displaceBlurStage [[grayPixel 255, grayPixel 0]] 1 false
  unfold displaceBlurStage
  rw [c4_intensity_eval, c4_blur_eval, c4_encode_eval]
  decide

/-- Claim C4 (amended): of the two SpecularmapGenerator outputs only the
displacement map has a caller-controlled optional BoxBlur post-process
(enable flag, radius, tileable); the specular map is stored exactly as the
generator produced it, with no blur stage. -/
theorem c4_amended (s : MWState) (img : Image) (h : s.input = some img) :
    (calcSpec s).specmap = some (specGenOf s img) ∧
    (calcDisplace s).displacementmap = some (if s.ui.displace_blur
      then displaceBlurStage (displaceGenOf s img)
        s.ui.displace_blurRadius s.ui.displace_blur_tileable
      else displaceGenOf s img) := by
  constructor
  · simp [calcSpec, specGenOf, h]
  · simp [calcDisplace, displaceGenOf, h]

/-- Claim C4, witness at c4state. -/
theorem c4_amended_witness :
    (calcSpec c4state).specmap = some (specGenOf c4state blurDemoImage) ∧
    (calcDisplace c4state).displacementmap = some (if c4state.ui.displace_blur
      then displaceBlurStage (displaceGenOf c4state blurDemoImage)
        c4state.ui.displace_blurRadius c4state.ui.displace_blur_tileable
      else displaceGenOf c4state blurDemoImage) :=
  c4_amended c4state blurDemoImage rfl

/-! ## Claim C3: map-cache invalidation -/

/-- The specular map of demoImage under the previous parameters (red and
green multipliers 1) encodes the byte 128. -/
lemma c3_oldMap_eval : c3oldMap = [[grayPixel 128]] := by
  have e : qEncode (applyScale (applyContrast
      (specPixelValue .AVERAGE ⟨1, 1, 0, 0⟩ ⟨255, 0, 0, 255⟩) 1) 1) = 128 := by
    apply qEncode_eval <;>
      norm_num [specPixelValue, applyContrast, applyScale, qclamp, max_def, min_def]
  simp only [c3oldMap, calculateSpecmap, demoImage, List.map_cons, List.map_nil]
  norm_num [e]

/-- The specular map of demoImage under the new red multiplier 3 encodes
the byte 191 - a genuinely different map. -/
lemma c3_newMap_eval : calculateSpecmap .AVERAGE ⟨3, 1, 0, 0⟩ demoImage 1 1 = [[grayPixel 191]] := by
  have e : qEncode (applyScale (applyContrast
      (specPixelValue .AVERAGE ⟨3, 1, 0, 0⟩ ⟨255, 0, 0, 255⟩) 1) 1) = 191 := by
    apply qEncode_eval <;>
      norm_num [specPixelValue, applyContrast, applyScale, qclamp, max_def, min_def]
  simp only [calculateSpecmap, demoImage, List.map_cons, List.map_nil]
  norm_num [e]

/-- Claim C3, counterexample: with auto-update off, editing the specular
red multiplier (a generation parameter) leaves the stored specular map
exactly as computed from the PREVIOUS parameter value, although the new
parameters produce a different map - the cache is not invalidated on a
parameter change. -/
theorem c3_counterexample :
    c3state.ui.autoUpdate_checked = false ∧
    (changeSpecRedMul 3 0 c3state).ui.spec_redMul = 3 ∧
    (changeSpecRedMul 3 0 c3state).specmap = some c3oldMap ∧
    calculateSpecmap .AVERAGE ⟨3, 1, 0, 0⟩ demoImage 1 1 ≠ c3oldMap := by
  refine ⟨rfl, ?_, ?_, ?_⟩
  · simp [changeSpecRedMul, autoUpdate, c3state]
  · simp [changeSpecRedMul, autoUpdate, c3state]
  · rw [c3_newMap_eval, c3_oldMap_eval]
    decide

/-- After a successful load the stored maps are cleared (the channel
intensity is either cleared or rebuilt from the new input). -/
lemma loadSuccessTail_maps (url : Url) (img : Image) (s : MWState)
    (hin : s.input = some img) :
    (loadSuccessTail url img s).normalmap = none ∧
    (loadSuccessTail url img s).specmap = none ∧
    (loadSuccessTail url img s).displacementmap = none ∧
    (loadSuccessTail url img s).ssaomap = none ∧
    ((loadSuccessTail url img s).channelIntensity = none ∨
      (loadSuccessTail url img s).channelIntensity =
        some (intensityToQImage (channelIntensityOf (loadSuccessTail url img s).ui img))) := by
  simp only [loadSuccessTail]
  split
  · refine ⟨?_, ?_, ?_, ?_, Or.inr ?_⟩ <;> simp [displayChannelIntensity, hin]
  · exact ⟨rfl, rfl, rfl, rfl, Or.inl rfl⟩

/-- Claim C3 (amended): the stored maps are invalidated on every successful
load - afterwards no previously generated map remains (the channel
intensity is at most rebuilt from the NEW input).  A generation-parameter
change alone does NOT invalidate: when auto-update is off, every stored map
survives the change unchanged (recomputation only happens through the
auto-update path, and then only for the current tab's map). -/
theorem c3_amended :
    (∀ (decode : Url → Option Image) (u : Url) (s : MWState) (img : Image),
      u.valid = true → decode u = some img →
      ∃ s1 r, load decode u s = .ok (true, s1, r) ∧
        s1.normalmap = none ∧ s1.specmap = none ∧ s1.displacementmap = none ∧
        s1.ssaomap = none ∧
        (s1.channelIntensity = none ∨
          s1.channelIntensity = some (intensityToQImage (channelIntensityOf s1.ui img)))) ∧
    (∀ (v e : ℚ) (s : MWState), s.ui.autoUpdate_checked = false →
      (changeSpecRedMul v e s).ui.spec_redMul = v ∧
      (changeSpecRedMul v e s).channelIntensity = s.channelIntensity ∧
      (changeSpecRedMul v e s).normalmap = s.normalmap ∧
      (changeSpecRedMul v e s).specmap = s.specmap ∧
      (changeSpecRedMul v e s).displacementmap = s.displacementmap ∧
      (changeSpecRedMul v e s).ssaomap = s.ssaomap) := by
  constructor
  · intro decode u s img hv hd
    refine ⟨loadSuccessTail u img { s with input := some img },
      { statusErrorShown := false, dialogMessage := none }, by simp [load, hv, hd], ?_⟩
    exact loadSuccessTail_maps u img { s with input := some img } rfl
  · intro v e s h
    refine ⟨?_, ?_, ?_, ?_, ?_, ?_⟩ <;> simp [changeSpecRedMul, autoUpdate, h]

/-- Claim C3, witness: a successful reload of c3state clears its maps, and
the parameter change at c3state keeps them. -/
theorem c3_amended_witness :
    (∃ s1 r, load (fun _ => some demoImage) ⟨true, "", "ok.png"⟩ c3state = .ok (true, s1, r) ∧
      s1.normalmap = none ∧ s1.specmap = none ∧ s1.displacementmap = none ∧
      s1.ssaomap = none ∧
      (s1.channelIntensity = none ∨
        s1.channelIntensity = some (intensityToQImage (channelIntensityOf s1.ui demoImage)))) ∧
    ((changeSpecRedMul 3 0 c3state).ui.spec_redMul = 3 ∧
      (changeSpecRedMul 3 0 c3state).channelIntensity = c3state.channelIntensity ∧
      (changeSpecRedMul 3 0 c3state).normalmap = c3state.normalmap ∧
      (changeSpecRedMul 3 0 c3state).specmap = c3state.specmap ∧
      (changeSpecRedMul 3 0 c3state).displacementmap = c3state.displacementmap ∧
      (changeSpecRedMul 3 0 c3state).ssaomap = c3state.ssaomap) :=
  ⟨c3_amended.1 (fun _ => some demoImage) ⟨true, "", "ok.png"⟩ c3state demoImage rfl rfl,
   c3_amended.2 3 0 c3state rfl⟩

/-! ## Claim C9: cooperative queue cancellation -/

lemma calcNormal_ui (s : MWState) : (calcNormal s).ui = s.ui := by
  unfold calcNormal; split <;> rfl

lemma calcSpec_ui (s : MWState) : (calcSpec s).ui = s.ui := by
  unfold calcSpec; split <;> rfl

lemma calcDisplace_ui (s : MWState) : (calcDisplace s).ui = s.ui := by
  unfold calcDisplace; split <;> rfl

lemma calcNormal_stop (s : MWState) : (calcNormal s).stopQueue = s.stopQueue := by
  unfold calcNormal; split <;> rfl

lemma calcSpec_stop (s : MWState) : (calcSpec s).stopQueue = s.stopQueue := by
  unfold calcSpec; split <;> rfl

lemma calcDisplace_stop (s : MWState) : (calcDisplace s).stopQueue = s.stopQueue := by
  unfold calcDisplace; split <;> rfl

lemma calcNormal_export (s : MWState) : (calcNormal s).exportPath = s.exportPath := by
  unfold calcNormal; split <;> rfl

lemma calcSpec_export (s : MWState) : (calcSpec s).exportPath = s.exportPath := by
  unfold calcSpec; split <;> rfl

lemma calcDisplace_export (s : MWState) : (calcDisplace s).exportPath = s.exportPath := by
  unfold calcDisplace; split <;> rfl

lemma save_ui (u : SaveUrl) (s : MWState) : (save u s).1.ui = s.ui := by
  unfold save; split <;> rfl

lemma save_stop (u : SaveUrl) (s : MWState) : (save u s).1.stopQueue = s.stopQueue := by
  unfold save; split <;> rfl

lemma save_export_valid (u : SaveUrl) (s : MWState) (h : u.valid = true) :
    (save u s).1.exportPath = some u.dir := by
  unfold save; simp [h]

/-- Processing one queue item with a valid URL and a set export path
produces its full trace - load, the selected calculators, save - and
preserves the queue checkboxes, the stop flag and the export path. -/
lemma processItem_spec (decode : Url → Option Image) (i : Nat) (u : Url) (s : MWState)
    (d : String) (hv : u.valid = true) (hexp : s.exportPath = some d) :
    ∃ s1, processItem decode i u s =
        .ok (s1, itemTrace s.ui.queue_generateNormal s.ui.queue_generateSpec
          s.ui.queue_generateDisplace i) ∧
      s1.ui.queue_generateNormal = s.ui.queue_generateNormal ∧
      s1.ui.queue_generateSpec = s.ui.queue_generateSpec ∧
      s1.ui.queue_generateDisplace = s.ui.queue_generateDisplace ∧
      s1.stopQueue = s.stopQueue ∧
      s1.exportPath = some d := by
  obtain ⟨b, sL, r, hload, hLq, hLstop, hgN, hgS, hgD, hexp2⟩ := load_ok decode u s hv
  have hexpL : sL.exportPath = some d := hexp2 d hexp
  unfold processItem
  rw [hload]
  dsimp only
  simp only [← hgN, ← hgS, ← hgD, ← hLstop]
  by_cases hN : sL.ui.queue_generateNormal <;> by_cases hS : sL.ui.queue_generateSpec <;>
    by_cases hD : sL.ui.queue_generateDisplace <;>
  simp [hN, hS, hD, itemTrace, calcNormal_ui, calcSpec_ui, calcDisplace_ui,
    calcNormal_stop, calcSpec_stop, calcDisplace_stop,
    calcNormal_export, calcSpec_export, calcDisplace_export, hexpL,
    save_ui, save_stop, save_export_valid]

/-- The trace invariant of the processQueue loop: items are processed one
by one, each in full, and the loop stops before the first item whose
predecessor's processing saw the stop click. -/
lemma processLoop_spec (decode : Url → Option Image) (stopSig : Nat → Bool) (d : String)
    (gN gS gD : Bool) (rest : List Url) :
    ∀ (i : Nat) (s : MWState), (∀ u ∈ rest, u.valid = true) →
    s.ui.queue_generateNormal = gN → s.ui.queue_generateSpec = gS →
    s.ui.queue_generateDisplace = gD → s.exportPath = some d →
    ∃ s1, processLoop decode stopSig rest i s =
      .ok (s1, if s.stopQueue then [] else expectedTrace gN gS gD stopSig rest i) := by
  induction rest with
  | nil =>
    intro i s _ _ _ _ _
    exact ⟨s, by simp [processLoop, expectedTrace]⟩
  | cons u rest ih =>
    intro i s hval hN hS hD hexp
    have hu : u.valid = true := hval u (by simp)
    have hrest : ∀ v ∈ rest, v.valid = true := fun v hv => hval v (by simp [hv])
    unfold processLoop
    by_cases hstop : s.stopQueue
    · exact ⟨s, by simp [hstop]⟩
    · obtain ⟨s1, hitem, hgN1, hgS1, hgD1, hstop1, hexp1⟩ :=
        processItem_spec decode i u s d hu hexp
      rw [if_neg hstop, hitem]
      dsimp only
      obtain ⟨s3, hrec⟩ := ih (i + 1) { s1 with stopQueue := s1.stopQueue || stopSig i }
        hrest (by simp [hgN1, hN]) (by simp [hgS1, hS]) (by simp [hgD1, hD])
        (by simp [hexp1])
      rw [hrec]
      have hs1stop : s1.stopQueue = false := by
        rw [hstop1]; simpa using hstop
      refine ⟨s3, ?_⟩
      simp [expectedTrace, hs1stop, hstop, hN, hS, hD]

/-- Claim C9: during queue processing the stop flag is read only between
consecutive items: every processed item runs to completion (its load, the
selected map generations and its save all happen, in order), after a stop
request during item i no item after i is started, and when processing ends
the stop flag is lowered again.  The produced trace is exactly
expectedTrace, which closes each item's work before consulting the stop
signal. -/
theorem c9_stop_between_items (decode : Url → Option Image) (stopSig : Nat → Bool)
    (s : MWState) (d : String) (hne : s.queue ≠ [])
    (hexp : s.exportPath = some d)
    (hvalid : ∀ u ∈ s.queue, u.valid = true)
    (hstop : s.stopQueue = false) :
    ∃ s1, processQueue decode stopSig s =
        .ok (s1, expectedTrace s.ui.queue_generateNormal s.ui.queue_generateSpec
          s.ui.queue_generateDisplace stopSig s.queue 0) ∧
      s1.stopQueue = false := by
  unfold processQueue
  have hlen : ¬ s.queue.length = 0 := by simpa [List.length_eq_zero] using hne
  rw [if_neg hlen, if_neg (by simp [hexp])]
  obtain ⟨s1, hloop⟩ := processLoop_spec decode stopSig d
    s.ui.queue_generateNormal s.ui.queue_generateSpec s.ui.queue_generateDisplace
    s.queue 0 s hvalid rfl rfl rfl hexp
  rw [hloop]
  rw [hstop] at *
  exact ⟨{ s1 with stopQueue := false }, by simp, rfl⟩

/-- Claim C9, witness: a two-item queue with the stop button clicked during
the first item's processing - the first item completes, the second never
starts, the flag ends lowered. -/
theorem c9_stop_between_items_witness :
    ∃ s1, processQueue (fun _ => none) (fun i => decide (i = 0)) c9state =
        .ok (s1, expectedTrace c9state.ui.queue_generateNormal
          c9state.ui.queue_generateSpec c9state.ui.queue_generateDisplace
          (fun i => decide (i = 0)) c9state.queue 0) ∧
      s1.stopQueue = false :=
  c9_stop_between_items (fun _ => none) (fun i => decide (i = 0)) c9state "/out"
    (by simp [c9state]) rfl (by decide) rfl

end NmGen
